import Mathlib

/-!
Verification development for the Dezentra wallet/transaction orchestration
layer.  The definitions below are a shallow embedding of the TypeScript
sources: the Web3 provider (buyTrade, refreshBalances, approveUSDT,
getCurrentAllowance), the web3 configuration module (GAS_LIMITS,
TARGET_CHAIN), and the currency-converter hook (fetchRates, convertPrice).

Modelling conventions:
  - JavaScript bigint values become Nat (exact integers, as in the source).
  - JavaScript number values become exact rationals; NaN and the infinities
    are modelled explicitly where the source tests isFinite.
  - Every external call (chain read, simulate, write, receipt wait, HTTP
    fetch, localStorage) is an input supplied by an environment record, and
    fallible calls are Except values; the embedding replays the control flow
    of the source on those outcomes.
  - Async functions are modelled as pure functions from the environment to
    an outcome record that also logs the chain calls issued, the timer
    delays slept, and the storage writes performed, so that theorems can
    speak about side effects.
-/

/-! JavaScript string helpers: String.prototype.includes and startsWith,
    defined over character lists so that the kernel can evaluate them. -/

/-- Bool test that the first character list is a leading segment of the
second (JavaScript startsWith over decoded characters). -/
def charsLead : List Char → List Char → Bool
  | [], _ => true
  | _ :: _, [] => false
  | p :: ps, s :: ss => if p = s then charsLead ps ss else false

/-- Bool test that the first character list occurs contiguously inside the
second (JavaScript includes over decoded characters). -/
def charsContain (p : List Char) : List Char → Bool
  | [] => charsLead p []
  | c :: cs => if charsLead p (c :: cs) then true else charsContain p cs

/-- JavaScript s.includes(pat). -/
def jsIncludes (s pat : String) : Bool := charsContain pat.toList s.toList

/-- JavaScript s.startsWith(pat). -/
def jsStartsWith (s pat : String) : Bool := charsLead pat.toList s.toList

/-! Configuration constants from web3.config.ts. -/

/-- TARGET_CHAIN is avalancheFuji; its numeric chain id. -/
def TARGET_CHAIN_ID : Nat := 43113

/-- GAS_LIMITS.BUY_TRADE from web3.config.ts. -/
def GAS_LIMITS_BUY_TRADE : Nat := 800000

/-- GAS_LIMITS.APPROVE from web3.config.ts. -/
def GAS_LIMITS_APPROVE : Nat := 100000

/-! Error messages thrown by the Web3 provider (the source throws Error
    objects whose message strings stand for the error kinds of the spec). -/

/-- Message thrown when address or chain id is missing. -/
def walletNotConnectedMsg : String := "Wallet not connected"

/-- Message thrown when the connected chain is not TARGET_CHAIN
(the wrongNetwork kind of the spec taxonomy). -/
def wrongNetworkMsg : String := "Please switch to the correct network first"

/-- Message thrown when ESCROW_ADDRESSES has no entry for the chain. -/
def escrowUnavailableMsg : String := "Escrow contract not available on this network"

/-- Message thrown when USDT_ADDRESSES has no entry for the chain. -/
def usdtUnavailableMsg : String := "USDT contract not available on this network"

/-- Message thrown by the local logistics-provider validation inside the
try block of buyTrade. -/
def invalidLogisticsThrownMsg : String := "Invalid logistics provider address"

/-- User-facing message the catch block produces for the
InvalidLogisticsProvider kind (matched against contract revert text). -/
def invalidLogisticsKindMsg : String := "Invalid logistics provider selected"

/-- User-facing message for the NetworkError kind. -/
def networkErrorMsg : String := "Network error. Please check your connection and try again"

/-- Catch-all user-facing message (the Unknown kind). -/
def genericTxFailedMsg : String := "Transaction failed. Please try again."

/-- Error wrapping performed by getTrade: a TradeNotFound revert becomes
"Trade not found", anything else "Failed to fetch trade details". -/
def getTradeFailureMsg (e : String) : String :=
  if jsIncludes e "TradeNotFound" then "Trade not found"
  else "Failed to fetch trade details"

/-- The catch block of buyTrade: ordered substring matching of the raw
failure message against known revert reasons and provider phrases,
returning the user-facing message for the first match, with the generic
transaction-failed message as default. -/
def classifyBuyError (m : String) : String :=
  if jsIncludes m "InsufficientTokenBalance" then
    "Insufficient USDT balance for this purchase"
  else if jsIncludes m "InsufficientTokenAllowance" then
    "USDT allowance insufficient. Please approve the amount first"
  else if jsIncludes m "InvalidTradeId" || jsIncludes m "TradeNotFound" then
    "Invalid trade ID. This product may no longer be available"
  else if jsIncludes m "InsufficientQuantity" then
    "Requested quantity exceeds available stock"
  else if jsIncludes m "InvalidQuantity" then
    "Invalid quantity specified"
  else if jsIncludes m "InvalidLogisticsProvider" then
    invalidLogisticsKindMsg
  else if jsIncludes m "BuyerIsSeller" then
    "Cannot purchase your own product"
  else if jsIncludes m "InvalidTradeState" then
    "Trade is not in a valid state for purchase"
  else if jsIncludes m "User rejected" || jsIncludes m "user rejected" then
    "Transaction was rejected by user"
  else if jsIncludes m "Internal JSON-RPC error" then
    networkErrorMsg
  else if jsIncludes m "gas" then
    "Transaction failed due to gas issues. Please try again"
  else
    genericTxFailedMsg

/-! The buyTrade orchestrator from the Web3 provider. -/

/-- The fields of the on-chain trade record that buyTrade reads
(productCost, active, remainingQuantity). -/
structure TradeDetails where
  productCost : Nat
  active : Bool
  remainingQuantity : Nat
deriving DecidableEq

/-- BuyTradeParams; tradeId and quantity are already converted through
BigInt by the source, so they are Nat here. -/
structure BuyTradeParams where
  tradeId : Nat
  quantity : Nat
  logisticsProvider : String
deriving DecidableEq

/-- One chain call issued by buyTrade, with the arguments the source
passes (buyerToken is the USDT address, and buyerTokenAmount and
totalAmountInUSDT are both the computed total product cost). -/
inductive ChainCall where
  | readTrade (tradeId : Nat)
  | simulate (tradeId quantity : Nat) (logisticsProvider buyerToken : String)
      (buyerTokenAmount totalAmountInUSDT : Nat)
  | write (tradeId quantity : Nat) (logisticsProvider buyerToken : String)
      (buyerTokenAmount totalAmountInUSDT : Nat) (gas : Nat)
  | waitReceipt (timeoutMs : Nat)
deriving DecidableEq

/-- Wallet-session context the provider closes over: account address,
connected chain id, and the per-chain contract address lookups. -/
structure WalletCtx where
  address : Option String
  chainId : Option Nat
  escrowAddress : Option String
  usdtAddress : Option String
deriving DecidableEq

/-- Environment for one buyTrade run: outcomes of the external calls.
simulateGas is request.gas from the simulation (none when the simulated
request carries no gas field); writeResult is the transaction hash (none
models a falsy hash); receiptResult carries the decoded event logs, each
log either failing to decode (none) or yielding an event name and an
optional purchaseId argument. -/
structure BuyEnv where
  now : Nat
  tradeResult : Except String TradeDetails
  simulateGas : Except String (Option Nat)
  writeResult : Except String (Option String)
  receiptResult : Except String (List (Option (String × Option Nat)))

/-- PaymentTransaction returned by buyTrade.  The source renders amount
with formatUnits for display; here amount is the raw integer
totalAmountInUSDT in token smallest units. -/
structure PaymentTransaction where
  hash : String
  amount : Nat
  token : String
  toAddr : String
  fromAddr : String
  status : String
  timestamp : Nat
  purchaseId : Option Nat
deriving DecidableEq

deriving instance DecidableEq for Except

/-- Result of a buyTrade run: the returned value or thrown message, the
chain calls issued, and whether the delayed balance refresh was
scheduled. -/
structure BuyOutcome where
  result : Except String PaymentTransaction
  calls : List ChainCall
  refreshScheduled : Bool
deriving DecidableEq

/-- Extraction of purchaseId from the decoded receipt logs: drop logs that
failed to decode, find the first PurchaseCreated event, and read its
purchaseId argument. -/
def extractPurchaseId (logs : List (Option (String × Option Nat))) : Option Nat :=
  match (logs.filterMap id).find? (fun l => l.fst == "PurchaseCreated") with
  | some l => l.snd
  | none => none

/-- The buyTrade function of the Web3 provider.  Precondition checks run
before the try block and propagate their messages raw; everything inside
the try block that throws is routed through classifyBuyError by the catch
block. -/
def buyTrade (ctx : WalletCtx) (env : BuyEnv) (params : BuyTradeParams) : BuyOutcome :=
  match ctx.address, ctx.chainId with
  | none, _ => { result := .error walletNotConnectedMsg, calls := [], refreshScheduled := false }
  | some _, none => { result := .error walletNotConnectedMsg, calls := [], refreshScheduled := false }
  | some addr, some chainId =>
    if chainId ≠ TARGET_CHAIN_ID then
      { result := .error wrongNetworkMsg, calls := [], refreshScheduled := false }
    else
      match ctx.escrowAddress with
      | none => { result := .error escrowUnavailableMsg, calls := [], refreshScheduled := false }
      | some escrow =>
        match ctx.usdtAddress with
        | none => { result := .error usdtUnavailableMsg, calls := [], refreshScheduled := false }
        | some usdt =>
          if !jsStartsWith params.logisticsProvider "0x" || params.logisticsProvider.length != 42 then
            { result := .error (classifyBuyError invalidLogisticsThrownMsg),
              calls := [], refreshScheduled := false }
          else
            match env.tradeResult with
            | .error e =>
              { result := .error (classifyBuyError (getTradeFailureMsg e)),
                calls := [.readTrade params.tradeId], refreshScheduled := false }
            | .ok td =>
              let totalProductCost := td.productCost * params.quantity
              let gasEstimate : Nat :=
                match env.simulateGas with
                | .ok (some g) => if g ≠ 0 then g * 120 / 100 else GAS_LIMITS_BUY_TRADE
                | .ok none => GAS_LIMITS_BUY_TRADE
                | .error _ => GAS_LIMITS_BUY_TRADE
              let baseCalls : List ChainCall :=
                [.readTrade params.tradeId,
                 .simulate params.tradeId params.quantity params.logisticsProvider usdt
                   totalProductCost totalProductCost,
                 .write params.tradeId params.quantity params.logisticsProvider usdt
                   totalProductCost totalProductCost gasEstimate]
              match env.writeResult with
              | .error e =>
                { result := .error (classifyBuyError e), calls := baseCalls,
                  refreshScheduled := false }
              | .ok none =>
                { result := .error (classifyBuyError "Transaction failed to execute"),
                  calls := baseCalls, refreshScheduled := false }
              | .ok (some hash) =>
                match env.receiptResult with
                | .error e =>
                  { result := .error (classifyBuyError e),
                    calls := baseCalls ++ [.waitReceipt 60000], refreshScheduled := false }
                | .ok logs =>
                  { result := .ok
                      { hash := hash, amount := totalProductCost, token := "USDT",
                        toAddr := escrow, fromAddr := addr, status := "pending",
                        timestamp := env.now, purchaseId := extractPurchaseId logs },
                    calls := baseCalls ++ [.waitReceipt 60000], refreshScheduled := true }

/-- Gas limits of the write calls in a chain-call log. -/
def writeGasList (cs : List ChainCall) : List Nat :=
  cs.filterMap fun c =>
    match c with
    | .write _ _ _ _ _ _ g => some g
    | _ => none

/-- The totalAmountInUSDT arguments of the write calls in a chain-call log. -/
def writeAmountList (cs : List ChainCall) : List Nat :=
  cs.filterMap fun c =>
    match c with
    | .write _ _ _ _ _ amt _ => some amt
    | _ => none

/-! The currency-converter hook: cache configuration, fetchRates and
    convertPrice, from useCurrencyConverter. -/

/-- DEFAULT_CHAIN_ID (Avalanche Fuji). -/
def DEFAULT_CHAIN_ID : Nat := 43113

/-- ExchangeRates record held in state and persisted to localStorage.
The three ratios are JavaScript numbers, modelled as exact rationals. -/
structure ExchangeRates where
  USDT_NATIVE : ℚ
  USDT_FIAT : ℚ
  NATIVE_FIAT : ℚ
  nativeTokenSymbol : String
  nativeTokenName : String
  chainId : Nat
  lastUpdated : Nat
deriving DecidableEq

/-- DEFAULT_RATES from the source, with the lastUpdated field supplied at
the use site (the source spreads DEFAULT_RATES and adds lastUpdated). -/
def DEFAULT_RATES (lastUpdated : Nat) : ExchangeRates :=
  { USDT_NATIVE := 0.025, USDT_FIAT := 1, NATIVE_FIAT := 40,
    nativeTokenSymbol := "AVAX", nativeTokenName := "Avalanche",
    chainId := DEFAULT_CHAIN_ID, lastUpdated := lastUpdated }

/-- CACHE_CONFIG.RATE_CACHE_DURATION (5 minutes, in ms). -/
def RATE_CACHE_DURATION : Nat := 5 * 60 * 1000

/-- CACHE_CONFIG.STALE_CACHE_DURATION (30 minutes, in ms). -/
def STALE_CACHE_DURATION : Nat := 30 * 60 * 1000

/-- CACHE_CONFIG.RETRY_DELAY (ms). -/
def RETRY_DELAY : Nat := 1000

/-- CACHE_CONFIG.MAX_RETRIES. -/
def MAX_RETRIES : Nat := 2

/-- CACHE_KEYS.RATES: the localStorage key for the rate cache of a chain. -/
def CACHE_KEYS_RATES (chainId : Nat) : String :=
  "currency_rates_v2_" ++ toString chainId

/-- One coin record of the price-source response: the usd field and the
field at the lower-cased local currency code (none when absent). -/
structure PriceEntry where
  usd : Option ℚ
  inFiat : Option ℚ
deriving DecidableEq

/-- The price-source response body: the tether record and the record at
the coingecko id of the native token (none when the key is missing, which
the source treats as an invalid response). -/
structure PriceResponse where
  tether : Option PriceEntry
  native : Option PriceEntry
deriving DecidableEq

/-- JavaScript truthy-or fallback on an optional number: x or d, where an
absent or zero value falls back to d. -/
def jsOrQ : Option ℚ → ℚ → ℚ
  | some x, d => if x = 0 then d else x
  | none, d => d

/-- The three ratios computed from one successful response. -/
structure FetchedRatios where
  usdtToNative : ℚ
  usdtToFiat : ℚ
  nativeToFiat : ℚ
deriving DecidableEq

/-- The body of one fetch attempt after the HTTP layer succeeded: validate
the response structure and the native price, then compute the ratios with
the fallbacks of the source (usd price of tether defaulting to 1, fiat
fields defaulting to the usd prices). -/
def computeRatios (resp : PriceResponse) : Except String FetchedRatios :=
  match resp.tether, resp.native with
  | some t, some n =>
    let usdtPrice := jsOrQ t.usd 1
    match n.usd with
    | none => .error "Invalid native token price data"
    | some p =>
      if p ≤ 0 then .error "Invalid native token price data"
      else
        .ok { usdtToNative := usdtPrice / p,
              usdtToFiat := jsOrQ t.inFiat usdtPrice,
              nativeToFiat := jsOrQ n.inFiat p }
  | _, _ => .error "Invalid API response structure"

/-- The converter state the fetchRates closure captures: the effective
chain id, whether the connected network is unsupported, the native token
display metadata, and the current in-memory rates and error states. -/
structure ConverterState where
  effectiveChainId : Nat
  isUnsupportedNetwork : Bool
  tokenSymbol : String
  tokenName : String
  rates : ExchangeRates
  error : Option String
deriving DecidableEq

/-- Environment of one fetchRates run: the clock, the currency code
returned by fetchGeoData (which catches all of its own failures and is
total per the source), the outcome of each successive network attempt,
and the parsed localStorage content at the rate key of the effective
chain (none when absent, error when JSON parsing throws). -/
structure RateEnv where
  now : Nat
  geoCurrency : String
  attempts : Nat → Except String PriceResponse
  cached : Option (Except String ExchangeRates)

/-- Outcome of one attempt: a network-level failure propagates, a
successful response goes through validation and ratio computation. -/
def attemptResult (env : RateEnv) (i : Nat) : Except String FetchedRatios :=
  match env.attempts i with
  | .error e => .error e
  | .ok resp => computeRatios resp

/-- The retry loop of attemptFetch: on failure with retries left, sleep
RETRY_DELAY times the new retry count and recurse; after the retry budget
the failure propagates.  Returns the final outcome together with the
delays slept. -/
def attemptLoop (out : Nat → Except String FetchedRatios) :
    Nat → Nat → Except String FetchedRatios × List Nat
  | 0, i => (out i, [])
  | fuel + 1, i =>
    match out i with
    | .ok v => (.ok v, [])
    | .error _ =>
      let rest := attemptLoop out fuel (i + 1)
      (rest.fst, RETRY_DELAY * (i + 1) :: rest.snd)

/-- Outcome of a fetchRates run: the rates state after the run, the error
state after the run, the retry delays slept, and the localStorage writes
to rate keys performed (the geo cache uses the separate fixed key
user_geo_v2 and stores geo data, not rates). -/
structure FetchOutcome where
  rates : ExchangeRates
  error : Option String
  delays : List Nat
  storageWrites : List (String × ExchangeRates)
deriving DecidableEq

/-- The skip guard at the top of fetchRates: recent same-chain data and no
forced refresh. -/
def shouldSkipFetch (st : ConverterState) (env : RateEnv) (forceRefresh : Bool) : Bool :=
  !forceRefresh && (st.rates.chainId == st.effectiveChainId) &&
    (st.rates.lastUpdated != 0) &&
    decide ((env.now : ℤ) - (st.rates.lastUpdated : ℤ) < (RATE_CACHE_DURATION : ℤ))

/-- The per-chain fallback record the source builds by spreading
DEFAULT_RATES with the captured token metadata and chain id. -/
def fallbackRatesFor (st : ConverterState) (now : Nat) : ExchangeRates :=
  { DEFAULT_RATES now with
    nativeTokenSymbol := st.tokenSymbol,
    nativeTokenName := st.tokenName,
    chainId := st.effectiveChainId }

/-- The fetchRates function of the currency converter.  All failure paths
are caught internally: the run always produces a rates record (fresh,
cached, or default) and never propagates an exception, mirroring the
try/catch structure of the source. -/
def fetchRates (st : ConverterState) (env : RateEnv) (forceRefresh : Bool) : FetchOutcome :=
  if shouldSkipFetch st env forceRefresh then
    { rates := st.rates, error := st.error, delays := [], storageWrites := [] }
  else if st.isUnsupportedNetwork then
    { rates := fallbackRatesFor st env.now, error := st.error, delays := [],
      storageWrites := [] }
  else
    match attemptLoop (attemptResult env) MAX_RETRIES 0 with
    | (.ok v, ds) =>
      let newRates : ExchangeRates :=
        { USDT_NATIVE := v.usdtToNative, USDT_FIAT := v.usdtToFiat,
          NATIVE_FIAT := v.nativeToFiat, nativeTokenSymbol := st.tokenSymbol,
          nativeTokenName := st.tokenName, chainId := st.effectiveChainId,
          lastUpdated := env.now }
      { rates := newRates, error := none, delays := ds,
        storageWrites := [(CACHE_KEYS_RATES st.effectiveChainId, newRates)] }
    | (.error e, ds) =>
      match env.cached with
      | some (.ok parsed) =>
        if parsed.lastUpdated ≠ 0 then
          { rates := parsed, error := some e, delays := ds, storageWrites := [] }
        else
          { rates := fallbackRatesFor st env.now, error := some e, delays := ds,
            storageWrites := [] }
      | _ =>
        { rates := fallbackRatesFor st env.now, error := some e, delays := ds,
          storageWrites := [] }

/-! The convertPrice function. -/

/-- The three currency lenses of the converter. -/
inductive Currency where
  | USDT
  | NATIVE
  | FIAT
deriving DecidableEq

/-- A JavaScript number: a finite value (modelled as an exact rational) or
one of the non-finite values NaN and the two infinities. -/
inductive JSNum where
  | num (q : ℚ)
  | nan
  | inf
  | negInf
deriving DecidableEq

/-- JavaScript isFinite on a number. -/
def JSNum.isFinite : JSNum → Bool
  | .num _ => true
  | _ => false

/-- The convertPrice function: identity when source and target currency
coincide, when the amount is non-finite, or when it is zero; otherwise
multiply or divide by the corresponding rate, with a zero result when a
divisor rate is not positive. -/
def convertPrice (rates : ExchangeRates) (price : JSNum) (src dst : Currency) : JSNum :=
  if src = dst || !price.isFinite || price == .num 0 then price
  else
    match price with
    | .num q =>
      match src, dst with
      | .USDT, .NATIVE => .num (q * rates.USDT_NATIVE)
      | .USDT, .FIAT => .num (q * rates.USDT_FIAT)
      | .NATIVE, .USDT => .num (if 0 < rates.USDT_NATIVE then q / rates.USDT_NATIVE else 0)
      | .NATIVE, .FIAT => .num (q * rates.NATIVE_FIAT)
      | .FIAT, .USDT => .num (if 0 < rates.USDT_FIAT then q / rates.USDT_FIAT else 0)
      | .FIAT, .NATIVE => .num (if 0 < rates.NATIVE_FIAT then q / rates.NATIVE_FIAT else 0)
      | _, _ => price
    | _ => price

/-! The refreshBalances coalescing guard of the Web3 provider, modelled as
    a state machine under the cooperative scheduling model of the spec: a
    start event is the synchronous prefix of a refreshBalances call up to
    its await (the guard check, the in-flight flag set, and the issue of
    the three balance reads), and a finish event is the continuation that
    clears the flag once the awaited reads settle. -/

/-- The three reads one refresh issues via Promise.allSettled. -/
inductive BalanceRead where
  | usdtBalance
  | nativeBalance
  | allowance
deriving DecidableEq

/-- Wallet condition the refresh guard consults. -/
structure BalanceCtx where
  isConnected : Bool
  address : Option String
  isCorrectNetwork : Bool
deriving DecidableEq

/-- Shared refresh state: the in-flight flag and the log of reads issued. -/
structure RefreshState where
  isRefreshing : Bool
  reads : List BalanceRead
deriving DecidableEq

/-- Events of the refresh state machine. -/
inductive RefreshEvent where
  | start
  | finish
deriving DecidableEq

/-- The guard of refreshBalances: return immediately when disconnected,
without an address, on the wrong network, or when a refresh is already in
flight. -/
def refreshGuardBlocks (ctx : BalanceCtx) (s : RefreshState) : Bool :=
  !ctx.isConnected || ctx.address.isNone || !ctx.isCorrectNetwork || s.isRefreshing

/-- One step of the refresh state machine: a blocked start is a no-op; an
unblocked start sets the flag and issues the three reads; a finish clears
the flag. -/
def refreshStep (ctx : BalanceCtx) (s : RefreshState) : RefreshEvent → RefreshState
  | .start =>
    if refreshGuardBlocks ctx s then s
    else { isRefreshing := true,
           reads := s.reads ++ [.usdtBalance, .nativeBalance, .allowance] }
  | .finish => { s with isRefreshing := false }

/-- A run of the refresh state machine over a list of events. -/
def refreshRun (ctx : BalanceCtx) (s : RefreshState) (evs : List RefreshEvent) : RefreshState :=
  evs.foldl (refreshStep ctx) s

/-! The approveUSDT flow of the Web3 provider. -/

/-- Environment of one approveUSDT run: the refetched raw allowance (a
bigint, none when the read returned no data), the USDT decimals value the
provider holds, and the outcome of the approval write. -/
structure ApproveEnv where
  allowanceRaw : Except String (Option Nat)
  usdtDecimals : Option Nat
  writeResult : Except String String

/-- The maximum uint256 approval amount the source passes to approve. -/
def maxApproval : Nat :=
  0xffffffffffffffffffffffffffffffffffffffffffffffffffffffffffffffff

/-- getCurrentAllowance: zero without wallet or token contract, zero when
the refetch fails or returns no data or the decimals are unknown,
otherwise the raw integer rendered through formatUnits and parseFloat
(modelled exactly as raw divided by ten to the decimals). -/
def getCurrentAllowance (ctx : WalletCtx) (env : ApproveEnv) : ℚ :=
  match ctx.address, ctx.chainId, ctx.usdtAddress with
  | some _, some _, some _ =>
    match env.allowanceRaw with
    | .ok (some raw) =>
      match env.usdtDecimals with
      | some d => if raw = 0 then 0 else (raw : ℚ) / 10 ^ d
      | none => 0
    | .ok none => 0
    | .error _ => 0
  | _, _, _ => 0

/-- The catch block of approveUSDT; the final branch wraps the message
produced by the external parseWeb3Error helper, which is outside the
embedded slice and carried through unchanged here (no claim depends on
it). -/
def classifyApproveError (m : String) : String :=
  if jsIncludes m "User rejected" then "Approval was rejected by user"
  else if jsIncludes m "insufficient funds" then "Insufficient AVAX for gas fees"
  else "Approval failed: " ++ m

/-- Outcome of an approveUSDT run: the returned hash or thrown message,
the approve write calls issued as (spender, amount, gas) triples, and
whether the delayed allowance refetch was scheduled. -/
structure ApproveOutcome where
  result : Except String String
  approveCalls : List (String × Nat × Nat)
  refreshScheduled : Bool
deriving DecidableEq

/-- The approveUSDT function: after the wallet and contract preconditions,
read the current allowance; when it already covers the requested amount
return the sentinel hash without any write, otherwise submit an approval
for maxApproval with the fixed approve gas limit.  The requested amount is
the parseFloat of the string argument, modelled as an exact rational. -/
def approveUSDT (ctx : WalletCtx) (env : ApproveEnv) (amount : ℚ) : ApproveOutcome :=
  match ctx.address, ctx.chainId with
  | none, _ => { result := .error walletNotConnectedMsg, approveCalls := [], refreshScheduled := false }
  | some _, none => { result := .error walletNotConnectedMsg, approveCalls := [], refreshScheduled := false }
  | some _, some _ =>
    match ctx.usdtAddress, ctx.escrowAddress with
    | none, _ =>
      { result := .error "Contracts not available on this network",
        approveCalls := [], refreshScheduled := false }
    | some _, none =>
      { result := .error "Contracts not available on this network",
        approveCalls := [], refreshScheduled := false }
    | some _, some escrow =>
      let currentAllowance := getCurrentAllowance ctx env
      if currentAllowance ≥ amount then
        { result := .ok "0x0", approveCalls := [], refreshScheduled := false }
      else
        match env.writeResult with
        | .ok h =>
          { result := .ok h,
            approveCalls := [(escrow, maxApproval, GAS_LIMITS_APPROVE)],
            refreshScheduled := true }
        | .error e =>
          { result := .error (classifyApproveError e),
            approveCalls := [(escrow, maxApproval, GAS_LIMITS_APPROVE)],
            refreshScheduled := false }

/-! Concrete fixtures used by witnesses and counterexamples. -/

/-- A wallet connected on the target chain with both contracts resolved. -/
def ctxGood : WalletCtx :=
  { address := some "0xbuyer", chainId := some TARGET_CHAIN_ID,
    escrowAddress := some "0xescrow", usdtAddress := some "0xusdt" }

/-- A disconnected wallet. -/
def ctxNoWallet : WalletCtx :=
  { address := none, chainId := none, escrowAddress := none, usdtAddress := none }

/-- A wallet connected on a supported but wrong chain (Base Sepolia). -/
def ctxWrongNet : WalletCtx :=
  { address := some "0xbuyer", chainId := some 84532,
    escrowAddress := some "0xescrow", usdtAddress := some "0xusdt" }

/-- Connected on the target chain but with no escrow contract configured. -/
def ctxNoEscrow : WalletCtx :=
  { address := some "0xbuyer", chainId := some TARGET_CHAIN_ID,
    escrowAddress := none, usdtAddress := none }

/-- Connected on the target chain with escrow but no USDT contract. -/
def ctxNoUsdt : WalletCtx :=
  { address := some "0xbuyer", chainId := some TARGET_CHAIN_ID,
    escrowAddress := some "0xescrow", usdtAddress := none }

/-- A request with a well-formed logistics provider address and quantity 3. -/
def paramsGood : BuyTradeParams :=
  { tradeId := 7, quantity := 3,
    logisticsProvider := "0x1234567890123456789012345678901234567890" }

/-- A request whose logistics provider address starts with 0x but is only
10 characters long. -/
def paramsBadLogistics : BuyTradeParams :=
  { tradeId := 7, quantity := 1, logisticsProvider := "0xdeadbeef" }

/-- An environment none of whose calls are reached by the scenarios that
use it. -/
def envIdle : BuyEnv :=
  { now := 0, tradeResult := .error "unused", simulateGas := .error "unused",
    writeResult := .error "unused", receiptResult := .error "unused" }

/-- Simulation throws, the write succeeds, the receipt wait fails with a
timeout message that matches none of the classifier patterns. -/
def envSimFailReceiptFail : BuyEnv :=
  { now := 0,
    tradeResult := .ok { productCost := 10000000, active := true, remainingQuantity := 5 },
    simulateGas := .error "execution reverted",
    writeResult := .ok (some "0xhash1"),
    receiptResult := .error "Timed out while waiting for transaction receipt" }

/-- Simulation throws but the write and the receipt wait both succeed. -/
def envSimFailHappy : BuyEnv :=
  { now := 0,
    tradeResult := .ok { productCost := 10000000, active := true, remainingQuantity := 5 },
    simulateGas := .error "execution reverted",
    writeResult := .ok (some "0xhash2"),
    receiptResult := .ok [] }

/-- Simulation succeeds with a gas estimate and everything else succeeds. -/
def envSimEstimateOk : BuyEnv :=
  { now := 0,
    tradeResult := .ok { productCost := 10000000, active := true, remainingQuantity := 5 },
    simulateGas := .ok (some 500000),
    writeResult := .ok (some "0xhash3"),
    receiptResult := .ok [] }

/-- Simulation and write succeed but the receipt wait times out. -/
def envReceiptTimeout : BuyEnv :=
  { now := 0,
    tradeResult := .ok { productCost := 10000000, active := true, remainingQuantity := 5 },
    simulateGas := .ok (some 500000),
    writeResult := .ok (some "0xhash4"),
    receiptResult := .error "Timed out while waiting for transaction receipt" }

/-! Claims. -/

/-- C1: the buyTrade preconditions are checked in order (wallet connected,
then correct network, then escrow contract, then token contract) and every
precondition failure is returned before any chain call is issued; in
particular a wallet connected on a wrong network always gets the
wrongNetwork error with no read, simulate or write. -/
theorem buyTrade_preconditions_ordered (ctx : WalletCtx) (env : BuyEnv) (params : BuyTradeParams) :
    ((ctx.address = none ∨ ctx.chainId = none) →
      (buyTrade ctx env params).result = .error walletNotConnectedMsg ∧
      (buyTrade ctx env params).calls = [])
  ∧ (∀ a c, ctx.address = some a → ctx.chainId = some c → c ≠ TARGET_CHAIN_ID →
      (buyTrade ctx env params).result = .error wrongNetworkMsg ∧
      (buyTrade ctx env params).calls = [])
  ∧ (∀ a, ctx.address = some a → ctx.chainId = some TARGET_CHAIN_ID →
      ctx.escrowAddress = none →
      (buyTrade ctx env params).result = .error escrowUnavailableMsg ∧
      (buyTrade ctx env params).calls = [])
  ∧ (∀ a esc, ctx.address = some a → ctx.chainId = some TARGET_CHAIN_ID →
      ctx.escrowAddress = some esc → ctx.usdtAddress = none →
      (buyTrade ctx env params).result = .error usdtUnavailableMsg ∧
      (buyTrade ctx env params).calls = []) := by
  obtain ⟨oa, oc, oe, ou⟩ := ctx
  refine ⟨?_, ?_, ?_, ?_⟩
  · rintro (h | h)
    · subst h
      simp [buyTrade]
    · subst h
      cases oa <;> simp [buyTrade]
  · intro a c ha hc hne
    simp only at ha hc
    subst ha
    subst hc
    simp [buyTrade, hne]
  · intro a ha hc he
    simp only at ha hc he
    subst ha
    subst hc
    subst he
    simp [buyTrade]
  · intro a esc ha hc he hu
    simp only at ha hc he hu
    subst ha
    subst hc
    subst he
    subst hu
    simp [buyTrade]

/-- Witness for C1: the four precondition failures evaluated on concrete
contexts. -/
theorem buyTrade_preconditions_ordered_witness :
    ((buyTrade ctxNoWallet envIdle paramsGood).result = .error walletNotConnectedMsg ∧
      (buyTrade ctxNoWallet envIdle paramsGood).calls = [])
  ∧ ((buyTrade ctxWrongNet envIdle paramsGood).result = .error wrongNetworkMsg ∧
      (buyTrade ctxWrongNet envIdle paramsGood).calls = [])
  ∧ ((buyTrade ctxNoEscrow envIdle paramsGood).result = .error escrowUnavailableMsg ∧
      (buyTrade ctxNoEscrow envIdle paramsGood).calls = [])
  ∧ ((buyTrade ctxNoUsdt envIdle paramsGood).result = .error usdtUnavailableMsg ∧
      (buyTrade ctxNoUsdt envIdle paramsGood).calls = []) :=
  ⟨(buyTrade_preconditions_ordered ctxNoWallet envIdle paramsGood).1 (Or.inl rfl),
   (buyTrade_preconditions_ordered ctxWrongNet envIdle paramsGood).2.1 "0xbuyer" 84532
     rfl rfl (by decide),
   (buyTrade_preconditions_ordered ctxNoEscrow envIdle paramsGood).2.2.1 "0xbuyer"
     rfl rfl rfl,
   (buyTrade_preconditions_ordered ctxNoUsdt envIdle paramsGood).2.2.2 "0xbuyer" "0xescrow"
     rfl rfl rfl rfl⟩

/-- C2, counterexample: at a concrete input where the simulation call
throws and the write succeeds (returning a hash), the receipt wait fails,
so buyTrade returns a classified error and no PaymentTransaction, although
the write was submitted with the fallback gas limit; the claim that a
PaymentTransaction is returned whenever the write succeeds is therefore
false as stated. -/
theorem buyTrade_fallback_counterexample :
    envSimFailReceiptFail.simulateGas = .error "execution reverted"
  ∧ envSimFailReceiptFail.writeResult = .ok (some "0xhash1")
  ∧ writeGasList (buyTrade ctxGood envSimFailReceiptFail paramsGood).calls
      = [GAS_LIMITS_BUY_TRADE]
  ∧ (buyTrade ctxGood envSimFailReceiptFail paramsGood).result
      = .error genericTxFailedMsg := by
  refine ⟨rfl, rfl, by decide, by decide⟩

/-- C2, amended: when the same-chain simulation throws, the write is still
submitted with the fallback constant GAS_LIMITS.BUY_TRADE; when the
simulation succeeds with a (truthy) gas estimate, the write is submitted
with the estimate increased by the 20 percent margin (estimate times 120
divided by 100, in integer arithmetic); and in the fallback case a
PaymentTransaction is still returned when the write succeeds and the
subsequent receipt wait also succeeds. -/
theorem buyTrade_gas_margin_and_fallback (env : BuyEnv) (params : BuyTradeParams)
    (a esc usdt : String) (td : TradeDetails)
    (hlp : jsStartsWith params.logisticsProvider "0x" = true)
    (hlen : params.logisticsProvider.length = 42)
    (htd : env.tradeResult = .ok td) :
    (∀ e, env.simulateGas = .error e →
      writeGasList (buyTrade ⟨some a, some TARGET_CHAIN_ID, some esc, some usdt⟩ env params).calls
        = [GAS_LIMITS_BUY_TRADE])
  ∧ (∀ g, env.simulateGas = .ok (some g) → g ≠ 0 →
      writeGasList (buyTrade ⟨some a, some TARGET_CHAIN_ID, some esc, some usdt⟩ env params).calls
        = [g * 120 / 100])
  ∧ (∀ e h logs, env.simulateGas = .error e → env.writeResult = .ok (some h) →
      env.receiptResult = .ok logs →
      ∃ tx, (buyTrade ⟨some a, some TARGET_CHAIN_ID, some esc, some usdt⟩ env params).result
        = .ok tx) := by
  obtain ⟨n, tr, sg, wr, rr⟩ := env
  simp only at htd
  subst htd
  refine ⟨?_, ?_, ?_⟩
  · intro e hsg
    simp only at hsg
    subst hsg
    rcases wr with e' | ow
    · simp [buyTrade, hlp, hlen, writeGasList]
    · rcases ow with _ | h
      · simp [buyTrade, hlp, hlen, writeGasList]
      · rcases rr with e'' | logs <;>
          simp [buyTrade, hlp, hlen, writeGasList]
  · intro g hsg hg
    simp only at hsg
    subst hsg
    rcases wr with e' | ow
    · simp [buyTrade, hlp, hlen, writeGasList, hg]
    · rcases ow with _ | h
      · simp [buyTrade, hlp, hlen, writeGasList, hg]
      · rcases rr with e'' | logs <;>
          simp [buyTrade, hlp, hlen, writeGasList, hg]
  · intro e h logs hsg hw hr
    simp only at hsg hw hr
    subst hsg
    subst hw
    subst hr
    exact ⟨{ hash := h, amount := td.productCost * params.quantity, token := "USDT",
             toAddr := esc, fromAddr := a, status := "pending", timestamp := n,
             purchaseId := extractPurchaseId logs },
           by simp [buyTrade, hlp, hlen]⟩

/-- Witness for C2: the fallback gas limit, the 20 percent margin, and the
returned PaymentTransaction in the fallback case, at concrete inputs. -/
theorem buyTrade_gas_margin_and_fallback_witness :
    writeGasList (buyTrade ⟨some "0xbuyer", some TARGET_CHAIN_ID, some "0xescrow", some "0xusdt"⟩
        envSimFailHappy paramsGood).calls = [GAS_LIMITS_BUY_TRADE]
  ∧ writeGasList (buyTrade ⟨some "0xbuyer", some TARGET_CHAIN_ID, some "0xescrow", some "0xusdt"⟩
        envSimEstimateOk paramsGood).calls = [500000 * 120 / 100]
  ∧ (∃ tx, (buyTrade ⟨some "0xbuyer", some TARGET_CHAIN_ID, some "0xescrow", some "0xusdt"⟩
        envSimFailHappy paramsGood).result = .ok tx) :=
  ⟨(buyTrade_gas_margin_and_fallback envSimFailHappy paramsGood "0xbuyer" "0xescrow" "0xusdt"
      { productCost := 10000000, active := true, remainingQuantity := 5 }
      (by decide) (by decide) rfl).1 "execution reverted" rfl,
   (buyTrade_gas_margin_and_fallback envSimEstimateOk paramsGood "0xbuyer" "0xescrow" "0xusdt"
      { productCost := 10000000, active := true, remainingQuantity := 5 }
      (by decide) (by decide) rfl).2.1 500000 rfl (by decide),
   (buyTrade_gas_margin_and_fallback envSimFailHappy paramsGood "0xbuyer" "0xescrow" "0xusdt"
      { productCost := 10000000, active := true, remainingQuantity := 5 }
      (by decide) (by decide) rfl).2.2 "execution reverted" "0xhash2" [] rfl rfl rfl⟩

/-- C3, counterexample: at a concrete input where the receipt wait fails
with a timeout message, buyTrade fails with the generic transaction-failed
message, which is not the NetworkError message (the classifier only maps
messages containing the Internal JSON-RPC error marker to NetworkError);
the refresh is indeed not scheduled. -/
theorem buyTrade_receiptTimeout_counterexample :
    envReceiptTimeout.receiptResult
      = .error "Timed out while waiting for transaction receipt"
  ∧ (buyTrade ctxGood envReceiptTimeout paramsGood).result = .error genericTxFailedMsg
  ∧ genericTxFailedMsg ≠ networkErrorMsg
  ∧ (buyTrade ctxGood envReceiptTimeout paramsGood).refreshScheduled = false := by
  refine ⟨rfl, by decide, by decide, by decide⟩

/-- C3, amended: when the receipt wait of a same-chain buyTrade fails (for
example by exceeding the 60 second timeout), the call fails with the error
the classifier assigns to the failure message (NetworkError only when that
message contains the Internal JSON-RPC error marker, the generic
transaction-failed kind for a plain timeout message), no PaymentTransaction
is returned, and no balance refresh is scheduled. -/
theorem buyTrade_receiptFailure_classified (env : BuyEnv) (params : BuyTradeParams)
    (a esc usdt : String) (td : TradeDetails) (h m : String)
    (hlp : jsStartsWith params.logisticsProvider "0x" = true)
    (hlen : params.logisticsProvider.length = 42)
    (htd : env.tradeResult = .ok td)
    (hw : env.writeResult = .ok (some h))
    (hr : env.receiptResult = .error m) :
    (buyTrade ⟨some a, some TARGET_CHAIN_ID, some esc, some usdt⟩ env params).result
      = .error (classifyBuyError m)
  ∧ (buyTrade ⟨some a, some TARGET_CHAIN_ID, some esc, some usdt⟩ env params).refreshScheduled
      = false := by
  obtain ⟨n, tr, sg, wr, rr⟩ := env
  simp only at htd hw hr
  subst htd
  subst hw
  subst hr
  rcases sg with e' | og
  · simp [buyTrade, hlp, hlen]
  · rcases og with _ | g <;> simp [buyTrade, hlp, hlen]

/-- Witness for C3: the amended statement evaluated at the concrete
timeout input. -/
theorem buyTrade_receiptFailure_classified_witness :
    (buyTrade ⟨some "0xbuyer", some TARGET_CHAIN_ID, some "0xescrow", some "0xusdt"⟩
        envReceiptTimeout paramsGood).result
      = .error (classifyBuyError "Timed out while waiting for transaction receipt")
  ∧ (buyTrade ⟨some "0xbuyer", some TARGET_CHAIN_ID, some "0xescrow", some "0xusdt"⟩
        envReceiptTimeout paramsGood).refreshScheduled = false :=
  buyTrade_receiptFailure_classified envReceiptTimeout paramsGood "0xbuyer" "0xescrow" "0xusdt"
    { productCost := 10000000, active := true, remainingQuantity := 5 }
    "0xhash4" "Timed out while waiting for transaction receipt"
    (by decide) (by decide) rfl rfl rfl

/-- C4: at a request whose logistics provider address is malformed (10
characters), buyTrade issues zero chain calls and fails fast, but the
error it surfaces is the generic transaction-failed message, not the
InvalidLogisticsProvider kind: the local validation throws the plain
message, and the catch block reclassifies it to the default branch because
that plain message contains none of the matched substrings. -/
theorem buyTrade_malformedLogistics_behavior (env : BuyEnv) :
    (buyTrade ctxGood env paramsBadLogistics).result = .error genericTxFailedMsg
  ∧ (buyTrade ctxGood env paramsBadLogistics).calls = []
  ∧ classifyBuyError invalidLogisticsThrownMsg = genericTxFailedMsg
  ∧ genericTxFailedMsg ≠ invalidLogisticsKindMsg := by
  refine ⟨rfl, rfl, by decide, by decide⟩

/-- C5: whenever buyTrade reaches the submission stage, the amount it
passes to the chain as totalAmountInUSDT is exactly the on-chain unit
product cost multiplied by the requested quantity, computed over the
integers (bigint in the source) in the token smallest unit. -/
theorem buyTrade_totalCost_integer (env : BuyEnv) (params : BuyTradeParams)
    (a esc usdt : String) (td : TradeDetails)
    (hlp : jsStartsWith params.logisticsProvider "0x" = true)
    (hlen : params.logisticsProvider.length = 42)
    (htd : env.tradeResult = .ok td) :
    writeAmountList (buyTrade ⟨some a, some TARGET_CHAIN_ID, some esc, some usdt⟩ env params).calls
      = [td.productCost * params.quantity] := by
  obtain ⟨n, tr, sg, wr, rr⟩ := env
  simp only at htd
  subst htd
  rcases wr with e' | ow
  · simp [buyTrade, hlp, hlen, writeAmountList]
  · rcases ow with _ | h
    · simp [buyTrade, hlp, hlen, writeAmountList]
    · rcases rr with e'' | logs <;> simp [buyTrade, hlp, hlen, writeAmountList]

/-- Witness for C5: quantity 3 at an on-chain unit cost of 10 USDT in
six-decimal smallest units gives exactly 30 USDT in smallest units. -/
theorem buyTrade_totalCost_integer_witness :
    writeAmountList (buyTrade ⟨some "0xbuyer", some TARGET_CHAIN_ID, some "0xescrow", some "0xusdt"⟩
        envSimFailHappy paramsGood).calls = [30000000] := by
  have h := buyTrade_totalCost_integer envSimFailHappy paramsGood
    "0xbuyer" "0xescrow" "0xusdt"
    { productCost := 10000000, active := true, remainingQuantity := 5 }
    (by decide) (by decide) rfl
  simpa using h

/-- C6: every localStorage write fetchRates performs to the rate cache
goes to the key of the chain id captured when the fetch started, and the
persisted record carries that same chain id in its chainId field; hence a
fetch captured for chain A never stores its result under the key of a
different chain B, no matter when it completes. -/
theorem fetchRates_chainScoped (st : ConverterState) (env : RateEnv) (force : Bool) :
    ∀ k r, (k, r) ∈ (fetchRates st env force).storageWrites →
      k = CACHE_KEYS_RATES st.effectiveChainId ∧ r.chainId = st.effectiveChainId := by
  intro k r hmem
  unfold fetchRates at hmem
  split at hmem
  · simp at hmem
  · split at hmem
    · simp at hmem
    · split at hmem
      · simp at hmem
        obtain ⟨hk, hr⟩ := hmem
        subst hk
        subst hr
        exact ⟨rfl, rfl⟩
      · split at hmem
        · split at hmem <;> simp at hmem
        · simp at hmem

/-- A converter state on the target chain whose in-memory rates are not
yet populated, so the skip guard does not fire. -/
def stFuji : ConverterState :=
  { effectiveChainId := 43113, isUnsupportedNetwork := false,
    tokenSymbol := "AVAX", tokenName := "Avalanche",
    rates := DEFAULT_RATES 0, error := none }

/-- A rate environment whose first fetch attempt succeeds with tether at
one dollar and the native token at forty dollars. -/
def envRatesOk : RateEnv :=
  { now := 1000, geoCurrency := "USD",
    attempts := fun _ => .ok
      { tether := some { usd := some 1, inFiat := some 1 },
        native := some { usd := some 40, inFiat := some 40 } },
    cached := none }

/-- The record the successful fetch of envRatesOk persists. -/
def ratesWrittenOk : ExchangeRates :=
  { USDT_NATIVE := 1 / 40, USDT_FIAT := 1, NATIVE_FIAT := 40,
    nativeTokenSymbol := "AVAX", nativeTokenName := "Avalanche",
    chainId := 43113, lastUpdated := 1000 }

/-- Witness for C6: the persisted entry of a concrete successful fetch has
the key and the chainId field of the captured chain. -/
theorem fetchRates_chainScoped_witness :
    CACHE_KEYS_RATES 43113 = CACHE_KEYS_RATES stFuji.effectiveChainId
  ∧ ratesWrittenOk.chainId = stFuji.effectiveChainId := by
  have hw : (fetchRates stFuji envRatesOk true).storageWrites
      = [(CACHE_KEYS_RATES 43113, ratesWrittenOk)] := by
    simp [fetchRates, shouldSkipFetch, stFuji, envRatesOk, attemptLoop, attemptResult,
      computeRatios, jsOrQ, ratesWrittenOk, MAX_RETRIES, DEFAULT_RATES]
    norm_num
  have hmem : (CACHE_KEYS_RATES 43113, ratesWrittenOk)
      ∈ (fetchRates stFuji envRatesOk true).storageWrites := by
    rw [hw]
    exact List.mem_singleton.mpr rfl
  exact fetchRates_chainScoped stFuji envRatesOk true (CACHE_KEYS_RATES 43113)
    ratesWrittenOk hmem

/-- A refresh state machine run over a sequence of blocked starts leaves
the state unchanged. -/
lemma refreshRun_blocked (ctx : BalanceCtx) (s : RefreshState)
    (hs : s.isRefreshing = true) (n : Nat) :
    refreshRun ctx s (List.replicate n .start) = s := by
  induction n with
  | zero => rfl
  | succ n ih =>
    have hstep : refreshStep ctx s .start = s := by
      simp [refreshStep, refreshGuardBlocks, hs]
    calc refreshRun ctx s (List.replicate (n + 1) .start)
        = refreshRun ctx (refreshStep ctx s .start) (List.replicate n .start) := by
          simp [refreshRun, List.replicate_succ]
      _ = s := by rw [hstep]; exact ih

/-- C7: while a refresh is in flight, any further refreshBalances call is
a no-op (it issues no reads and changes no state), so a burst of n + 1
concurrent calls from an idle state issues exactly one underlying set of
reads: the USDT balance, the native balance, and the allowance, once. -/
theorem refreshBalances_coalesces (ctx : BalanceCtx) (s : RefreshState) (a : String) (n : Nat)
    (hconn : ctx.isConnected = true) (haddr : ctx.address = some a)
    (hnet : ctx.isCorrectNetwork = true) (hidle : s.isRefreshing = false) :
    (refreshRun ctx s (List.replicate (n + 1) .start)).reads
      = s.reads ++ [.usdtBalance, .nativeBalance, .allowance]
  ∧ (∀ s' : RefreshState, s'.isRefreshing = true → refreshStep ctx s' .start = s') := by
  constructor
  · have hstep : refreshStep ctx s .start
        = { isRefreshing := true,
            reads := s.reads ++ [.usdtBalance, .nativeBalance, .allowance] } := by
      simp [refreshStep, refreshGuardBlocks, hconn, haddr, hnet, hidle]
    have : refreshRun ctx s (List.replicate (n + 1) .start)
        = { isRefreshing := true,
            reads := s.reads ++ [.usdtBalance, .nativeBalance, .allowance] } := by
      calc refreshRun ctx s (List.replicate (n + 1) .start)
          = refreshRun ctx (refreshStep ctx s .start) (List.replicate n .start) := by
            simp [refreshRun, List.replicate_succ]
        _ = _ := by rw [hstep]; exact refreshRun_blocked ctx _ rfl n
    rw [this]
  · intro s' hs'
    simp [refreshStep, refreshGuardBlocks, hs']

/-- Witness for C7: three concurrent refresh calls on a connected wallet
issue the three reads exactly once. -/
theorem refreshBalances_coalesces_witness :
    (refreshRun { isConnected := true, address := some "0xbuyer", isCorrectNetwork := true }
        { isRefreshing := false, reads := [] } (List.replicate 3 .start)).reads
      = [.usdtBalance, .nativeBalance, .allowance] := by
  have h := refreshBalances_coalesces
    { isConnected := true, address := some "0xbuyer", isCorrectNetwork := true }
    { isRefreshing := false, reads := [] } "0xbuyer" 2 rfl rfl rfl rfl
  simpa using h.1

/-- C8: when every fetch attempt fails (the initial attempt and both
retries), fetchRates sleeps the two backoff delays of one and two times
RETRY_DELAY, records an error flag, and falls back in order: the cached
record for the chain whenever one parses and has a truthy lastUpdated
(even if expired), and otherwise the static per-chain default record; in
every case it returns a rates record and never propagates the failure
(the embedding is total on all environments, mirroring the catch-all
structure of the source). -/
theorem fetchRates_retries_then_cache_then_default (st : ConverterState) (env : RateEnv)
    (force : Bool)
    (hskip : shouldSkipFetch st env force = false)
    (hsup : st.isUnsupportedNetwork = false)
    (hfail : ∀ i, i < 3 → ∃ e, attemptResult env i = .error e) :
    (fetchRates st env force).delays = [RETRY_DELAY * 1, RETRY_DELAY * 2]
  ∧ (fetchRates st env force).error.isSome = true
  ∧ (∀ parsed, env.cached = some (.ok parsed) → parsed.lastUpdated ≠ 0 →
      (fetchRates st env force).rates = parsed)
  ∧ (env.cached = none → (fetchRates st env force).rates = fallbackRatesFor st env.now)
  ∧ (∀ pe, env.cached = some (.error pe) →
      (fetchRates st env force).rates = fallbackRatesFor st env.now)
  ∧ (∀ parsed, env.cached = some (.ok parsed) → parsed.lastUpdated = 0 →
      (fetchRates st env force).rates = fallbackRatesFor st env.now) := by
  obtain ⟨e0, h0⟩ := hfail 0 (by norm_num)
  obtain ⟨e1, h1⟩ := hfail 1 (by norm_num)
  obtain ⟨e2, h2⟩ := hfail 2 (by norm_num)
  have hloop : attemptLoop (attemptResult env) MAX_RETRIES 0
      = (.error e2, [RETRY_DELAY * 1, RETRY_DELAY * 2]) := by
    simp [attemptLoop, MAX_RETRIES, h0, h1, h2]
  refine ⟨?_, ?_, ?_, ?_, ?_, ?_⟩
  · rcases hc : env.cached with _ | ce
    · simp [fetchRates, hskip, hsup, hloop, hc]
    · rcases ce with pe | parsed
      · simp [fetchRates, hskip, hsup, hloop, hc]
      · by_cases hlu : parsed.lastUpdated = 0 <;>
          simp [fetchRates, hskip, hsup, hloop, hc, hlu]
  · rcases hc : env.cached with _ | ce
    · simp [fetchRates, hskip, hsup, hloop, hc]
    · rcases ce with pe | parsed
      · simp [fetchRates, hskip, hsup, hloop, hc]
      · by_cases hlu : parsed.lastUpdated = 0 <;>
          simp [fetchRates, hskip, hsup, hloop, hc, hlu]
  · intro parsed hc hlu
    simp [fetchRates, hskip, hsup, hloop, hc, hlu]
  · intro hc
    simp [fetchRates, hskip, hsup, hloop, hc]
  · intro pe hc
    simp [fetchRates, hskip, hsup, hloop, hc]
  · intro parsed hc hlu
    simp [fetchRates, hskip, hsup, hloop, hc, hlu]

/-- A rate environment in which every network attempt fails and no cache
entry exists for the chain. -/
def envRatesDown : RateEnv :=
  { now := 1000, geoCurrency := "USD",
    attempts := fun _ => .error "network down", cached := none }

/-- Witness for C8: with every attempt failing and no cache, the run
sleeps one and two seconds, records the error, and returns the per-chain
default record. -/
theorem fetchRates_retries_then_cache_then_default_witness :
    (fetchRates stFuji envRatesDown true).delays = [RETRY_DELAY * 1, RETRY_DELAY * 2]
  ∧ (fetchRates stFuji envRatesDown true).error.isSome = true
  ∧ (fetchRates stFuji envRatesDown true).rates = fallbackRatesFor stFuji envRatesDown.now := by
  have h := fetchRates_retries_then_cache_then_default stFuji envRatesDown true rfl rfl
    (fun i _ => ⟨"network down", rfl⟩)
  exact ⟨h.1, h.2.1, h.2.2.2.1 rfl⟩

/-- C9: convertPrice is the identity whenever the source and target
currencies coincide (for every amount, finite or not), and likewise
returns the amount unchanged, rather than raising, whenever the amount is
non-finite or zero. -/
theorem convertPrice_guards (rates : ExchangeRates) (price : JSNum) (c d : Currency) :
    (c = d → convertPrice rates price c d = price)
  ∧ (price.isFinite = false → convertPrice rates price c d = price)
  ∧ (price = .num 0 → convertPrice rates price c d = price) := by
  refine ⟨fun h => ?_, fun h => ?_, fun h => ?_⟩
  · subst h
    simp [convertPrice]
  · simp [convertPrice, h]
  · subst h
    simp [convertPrice]

/-- Witness for C9: identity on a same-currency conversion, on a NaN
amount, and on a zero amount, at concrete inputs. -/
theorem convertPrice_guards_witness :
    convertPrice (DEFAULT_RATES 0) (.num 5) .USDT .USDT = .num 5
  ∧ convertPrice (DEFAULT_RATES 0) .nan .USDT .FIAT = .nan
  ∧ convertPrice (DEFAULT_RATES 0) (.num 0) .NATIVE .FIAT = .num 0 :=
  ⟨(convertPrice_guards (DEFAULT_RATES 0) (.num 5) .USDT .USDT).1 rfl,
   (convertPrice_guards (DEFAULT_RATES 0) .nan .USDT .FIAT).2.1 rfl,
   (convertPrice_guards (DEFAULT_RATES 0) (.num 0) .NATIVE .FIAT).2.2 rfl⟩

/-- C10: with the wallet connected and both contracts available, an
approveUSDT call whose currently fetched allowance already covers the
requested amount returns the sentinel hash without submitting any write;
otherwise the single approval write it submits is for the maximum 256 bit
value (2 to the 256 minus 1), not for the requested amount. -/
theorem approveUSDT_skip_or_max (env : ApproveEnv) (amount : ℚ) (a u esc : String) (cid : Nat) :
    (getCurrentAllowance ⟨some a, some cid, some esc, some u⟩ env ≥ amount →
      approveUSDT ⟨some a, some cid, some esc, some u⟩ env amount
        = { result := .ok "0x0", approveCalls := [], refreshScheduled := false })
  ∧ (getCurrentAllowance ⟨some a, some cid, some esc, some u⟩ env < amount →
      (approveUSDT ⟨some a, some cid, some esc, some u⟩ env amount).approveCalls
        = [(esc, maxApproval, GAS_LIMITS_APPROVE)]
      ∧ maxApproval = 2 ^ 256 - 1) := by
  constructor
  · intro h
    simp [approveUSDT, h]
  · intro h
    have hn : ¬ getCurrentAllowance ⟨some a, some cid, some esc, some u⟩ env ≥ amount :=
      not_le.mpr h
    cases hw : env.writeResult with
    | ok hsh => exact ⟨by simp [approveUSDT, hn, hw], by decide⟩
    | error e => exact ⟨by simp [approveUSDT, hn, hw], by decide⟩

/-- An approval environment whose fetched allowance is one hundred tokens
in six-decimal units. -/
def envAllowanceHigh : ApproveEnv :=
  { allowanceRaw := .ok (some 100000000), usdtDecimals := some 6,
    writeResult := .ok "0xapprovehash" }

/-- An approval environment whose fetched allowance is one token in
six-decimal units. -/
def envAllowanceLow : ApproveEnv :=
  { allowanceRaw := .ok (some 1000000), usdtDecimals := some 6,
    writeResult := .ok "0xapprovehash" }

/-- Witness for C10: with allowance one hundred against a request of
fifty the sentinel is returned with no write; with allowance one the
write is for the maximum 256 bit value. -/
theorem approveUSDT_skip_or_max_witness :
    approveUSDT ⟨some "0xbuyer", some 43113, some "0xescrow", some "0xusdt"⟩ envAllowanceHigh 50
      = { result := .ok "0x0", approveCalls := [], refreshScheduled := false }
  ∧ ((approveUSDT ⟨some "0xbuyer", some 43113, some "0xescrow", some "0xusdt"⟩
        envAllowanceLow 50).approveCalls
      = [("0xescrow", maxApproval, GAS_LIMITS_APPROVE)]
    ∧ maxApproval = 2 ^ 256 - 1) :=
  ⟨(approveUSDT_skip_or_max envAllowanceHigh 50 "0xbuyer" "0xusdt" "0xescrow" 43113).1
     (by norm_num [getCurrentAllowance, envAllowanceHigh]),
   (approveUSDT_skip_or_max envAllowanceLow 50 "0xbuyer" "0xusdt" "0xescrow" 43113).2
     (by norm_num [getCurrentAllowance, envAllowanceLow])⟩
